import Mathlib

/-!
Verification of the SDK-library API-scope resolution logic of build_soong
(src/java/sdk_library.go), as a shallow embedding in Lean 4.

Conventions used throughout:
* Go pointers to the five statically initialised `apiScope` values are
  represented by the enumeration `ApiScopeName`; the struct fields of
  `apiScope` become functions on that enumeration, holding the values the
  fields have after `initApiScope` has run.
* `ctx.ModuleErrorf`/`ctx.PropertyErrorf` register fatal configuration
  errors with the build context; functions that call them are modelled as
  additionally returning the list of registered error strings.
* External queries made through the context (file existence, global build
  flags) become explicit record fields of an environment value.
-/

/-- The names of the five statically initialised api scopes
(`apiScopePublic`, `apiScopeSystem`, `apiScopeTest`, `apiScopeModuleLib`,
`apiScopeSystemServer` in sdk_library.go). -/
inductive ApiScopeName where
  | public
  | system
  | test
  | moduleLib
  | systemServer
deriving DecidableEq, Repr

/-- The `name` field of each scope. -/
def scopeName : ApiScopeName → String
  | .public => "public"
  | .system => "system"
  | .test => "test"
  | .moduleLib => "module-lib"
  | .systemServer => "system-server"

/-- The `extends` field of each scope: system extends public, test extends
system, module-lib extends system, system-server extends public. -/
def scopeExtends : ApiScopeName → Option ApiScopeName
  | .public => none
  | .system => some .public
  | .test => some .system
  | .moduleLib => some .system
  | .systemServer => some .public

/-- The `canAccess` field as written in the static initialisers: only
system-server declares one (module-lib). -/
def canAccessDecl : ApiScopeName → Option ApiScopeName
  | .systemServer => some .moduleLib
  | _ => none

/-- The `canAccess` field after `initApiScope` has run: it defaults to
`extends` when not declared ("if scope.canAccess == nil { scope.canAccess =
scope.extends }"). -/
def canAccess (s : ApiScopeName) : Option ApiScopeName :=
  match canAccessDecl s with
  | some s2 => some s2
  | none => scopeExtends s

/-- The `defaultEnabledStatus` field: true only for the public scope. -/
def defaultEnabledStatus : ApiScopeName → Bool
  | .public => true
  | _ => false

/-- The `unstable` field: true only for the test scope. -/
def scopeUnstable : ApiScopeName → Bool
  | .test => true
  | _ => false

/-- The `apiFilePrefix` field of each scope. -/
def apiFilePrefixOf : ApiScopeName → String
  | .public => ""
  | .system => "system-"
  | .test => "test-"
  | .moduleLib => "module-lib-"
  | .systemServer => "system-server-"

/-- The `allApiScopes` list, in its source order. -/
def allApiScopes : List ApiScopeName :=
  [.public, .system, .test, .moduleLib, .systemServer]

/-- The properties of a `java_sdk_library` module instance that the scope
enablement resolver and `CreateInternalModules` consult.  `scopeEnabled s`
models `module.scopeToProperties[s].Enabled` (a `*bool`, hence
`Option Bool`); `generateSystemAndTestApis` models the mutated
`Generate_system_and_test_apis` property. -/
structure SdkLibrary where
  name : String
  scopeEnabled : ApiScopeName → Option Bool
  generateSystemAndTestApis : Bool
  apiDirProp : Option String
  unsafeIgnoreMissingLatestApi : Bool
  moduleEnabled : Bool
  srcs : List String

/-- The `legacyEnabledStatus` function of each scope: public is always on;
system and test delegate to `generateTestAndSystemScopesByDefault` (the
`Generate_system_and_test_apis` property); module-lib and system-server are
always off in legacy mode. -/
def legacyEnabledStatus (m : SdkLibrary) : ApiScopeName → Bool
  | .public => true
  | .system => m.generateSystemAndTestApis
  | .test => m.generateSystemAndTestApis
  | .moduleLib => false
  | .systemServer => false

/-- First loop of `getGeneratedApiScopes`: whether any scope has an
explicit `Enabled` override set. -/
def anyScopesExplicitlyEnabled (m : SdkLibrary) : Bool :=
  allApiScopes.any fun s => (m.scopeEnabled s).isSome

/-- The enabled status computed for one scope in the second loop of
`getGeneratedApiScopes`: `proptools.BoolDefault(scopeProperties.Enabled,
defaultEnabledStatus)` where the default is the static
`defaultEnabledStatus` in explicit mode and the scope's
`legacyEnabledStatus` otherwise. -/
def scopeEnabledIn (m : SdkLibrary) (s : ApiScopeName) : Bool :=
  (m.scopeEnabled s).getD
    (if anyScopesExplicitlyEnabled m then defaultEnabledStatus s
     else legacyEnabledStatus m s)

/-- The message produced by `ctx.ModuleErrorf("enabled api scope %q depends
on disabled scope %q", scope, extends)`. -/
def downClosureErrorMsg (s p : ApiScopeName) : String :=
  "enabled api scope \"" ++ scopeName s ++ "\" depends on disabled scope \"" ++
    scopeName p ++ "\""

/-- `getGeneratedApiScopes` (sdk_library.go:1400): returns the generated
scopes (the enabled subset of `allApiScopes`, in order) together with the
down-closure errors registered with the context. -/
def getGeneratedApiScopes (m : SdkLibrary) : List ApiScopeName × List String :=
  let generatedScopes := allApiScopes.filter (scopeEnabledIn m)
  let errors := allApiScopes.filterMap fun scope =>
    if scopeEnabledIn m scope then
      match scopeExtends scope with
      | some p => if scopeEnabledIn m p then none else some (downClosureErrorMsg scope p)
      | none => none
    else none
  (generatedScopes, errors)

/-- The concrete scenario of C1: a library declaring `system.enabled=true`
with every other scope's `enabled` unset. -/
def systemOnlyExplicitLib : SdkLibrary :=
  { name := "L"
    scopeEnabled := fun s => if s = .system then some true else none
    generateSystemAndTestApis := false
    apiDirProp := none
    unsafeIgnoreMissingLatestApi := false
    moduleEnabled := true
    srcs := ["a.java"] }

/-- A library declaring `public.enabled=false, system.enabled=true`: the
down-closure violation scenario. -/
def publicOffSystemOnLib : SdkLibrary :=
  { name := "L"
    scopeEnabled := fun s =>
      if s = .system then some true else if s = .public then some false else none
    generateSystemAndTestApis := false
    apiDirProp := none
    unsafeIgnoreMissingLatestApi := false
    moduleEnabled := true
    srcs := ["a.java"] }

/-- The `scopePaths` record (sdk_library.go:674): per-(library, scope)
resolved artifact locations.  Go `android.Paths` becomes `List String`,
`android.OptionalPath`/`OptionalDexJarPath` become `Option String`. -/
structure ScopePaths where
  stubsHeaderPath : List String
  stubsImplPath : List String
  stubsDexJarPath : Option String
  exportableStubsDexJarPath : Option String
  currentApiFilePath : Option String
  removedApiFilePath : Option String
  stubsSrcJar : Option String
  annotationsZip : Option String
  latestApiPath : Option String
  latestRemovedApiPath : Option String
deriving DecidableEq, Repr

/-- The zero value `scopePaths{}` created by `getScopePathsCreateIfNeeded`. -/
def emptyScopePaths : ScopePaths :=
  ⟨[], [], none, none, none, none, none, none, none, none⟩

/-- A measure on scopes under which every `canAccess` link strictly
decreases; used only to justify termination of the access-chain walk. -/
def scopeRank : ApiScopeName → Nat
  | .public => 0
  | .system => 1
  | .test => 2
  | .moduleLib => 2
  | .systemServer => 3

/-- `findClosestScopePath` (sdk_library.go:1160): the loop
`for s := scope; s != nil; s = s.canAccess` returning the first scope in
the access chain whose scopePaths record exists (`findScopePaths` is
modelled by the map `c` itself). -/
def findClosestScopePath (c : ApiScopeName → Option ScopePaths) (s : ApiScopeName) :
    Option ScopePaths :=
  match c s with
  | some paths => some paths
  | none =>
    match h2 : canAccess s with
    | some s2 => findClosestScopePath c s2
    | none => none
termination_by scopeRank s
decreasing_by
  revert h2
  cases s <;> cases s2 <;> decide

/-- The access chain starting at a scope: the sequence of scopes visited by
the loop in `findClosestScopePath` (requested scope, then its `canAccess`,
then that scope's `canAccess`, ...). -/
def accessChain (s : ApiScopeName) : List ApiScopeName :=
  s ::
    (match h2 : canAccess s with
     | some s2 => accessChain s2
     | none => [])
termination_by scopeRank s
decreasing_by
  revert h2
  cases s <;> cases s2 <;> decide

/-- Modelled from the spec: the `android.SdkKind` enumeration is declared
outside src/ (android/sdk_version.go).  Constructors follow the
`android.Sdk*` constants referenced by sdk_library.go and by the spec's
scope-resolution description (system, test, module, system-server, plus the
core/none/private and remaining kinds that all resolve as public). -/
inductive SdkKind where
  | sdkInvalid
  | sdkNone
  | sdkCore
  | sdkCorePlatform
  | sdkPublic
  | sdkSystem
  | sdkTest
  | sdkModule
  | sdkSystemServer
  | sdkPrivate
  | sdkToolchain
deriving DecidableEq, Repr

/-- `sdkKindToApiScope` (sdk_library.go:1211): maps a consumer's requested
SDK kind to the scope used during selection; the switch's default arm
yields the public scope. -/
def sdkKindToApiScope : SdkKind → ApiScopeName
  | .sdkSystem => .system
  | .sdkModule => .moduleLib
  | .sdkTest => .test
  | .sdkSystemServer => .systemServer
  | _ => .public

/-- The parts of `commonToSdkLibraryAndImport` used by scope selection:
the library name (`c.module.RootLibraryName()`) and the per-scope paths map
(`c.scopePaths`, with `findScopePaths` returning `none` for absent keys). -/
structure SdkLibCommon where
  libName : String
  scopePathsMap : ApiScopeName → Option ScopePaths

/-- Go `%q` formatting of a string. -/
def goQuote (s : String) : String := "\"" ++ s ++ "\""

/-- Go `%q` formatting of a `[]string`. -/
def goQuoteList (xs : List String) : String :=
  "[" ++ String.intercalate " " (xs.map goQuote) ++ "]"

/-- The scope names the library does provide, collected by the loop over
`allApiScopes` in `selectScopePaths`. -/
def availableScopeNames (c : SdkLibCommon) : List String :=
  (allApiScopes.filter fun s => (c.scopePathsMap s).isSome).map scopeName

/-- The message of `ctx.ModuleErrorf("requires api scope %s from %s but it
only has %q available", ...)`. -/
def scopeUnavailableErrorMsg (scopeNm libNm : String) (available : List String) :
    String :=
  "requires api scope " ++ scopeNm ++ " from " ++ libNm ++ " but it only has " ++
    goQuoteList available ++ " available"

/-- `selectScopePaths` (sdk_library.go:1192): resolves the requested kind to
a scope, walks the access chain, and on failure registers a fatal error
(naming the requested scope, the library and the available scopes) and
returns no paths (`nil`, modelled as the error branch). -/
def selectScopePaths (c : SdkLibCommon) (kind : SdkKind) : Except String ScopePaths :=
  let sc := sdkKindToApiScope kind
  match findClosestScopePath c.scopePathsMap sc with
  | some paths => .ok paths
  | none =>
    .error (scopeUnavailableErrorMsg (scopeName sc) c.libName (availableScopeNames c))

/-- Example scopePaths for a module-lib-only library (C3's scenario). -/
def moduleLibScopePaths : ScopePaths :=
  { emptyScopePaths with stubsHeaderPath := ["out/L.stubs.module_lib.jar"] }

/-- A paths map providing only the module-lib scope. -/
def moduleLibOnlyPathsMap : ApiScopeName → Option ScopePaths := fun s =>
  if s = .moduleLib then some moduleLibScopePaths else none

/-- A library whose paths map provides no scope at all (C4's scenario). -/
def noScopesLib : SdkLibCommon :=
  { libName := "L", scopePathsMap := fun _ => none }

/-- The data a dependency exposes through `JavaInfoProvider`
(`lib.HeaderJars`, `lib.ImplementationJars`). -/
structure JavaInfo where
  headerJars : List String
  implementationJars : List String
deriving DecidableEq, Repr

/-- A dependency module as seen by the scope dependency-info extractors:
the optional `JavaInfoProvider` payload and the
`UsesLibraryDependency.DexJarBuildPath` result. -/
structure Dependency where
  javaInfo : Option JavaInfo
  dexJarBuildPath : Option String
deriving DecidableEq, Repr

/-- `extractEverythingStubsLibraryInfoFromDependency` (sdk_library.go:728).
`relExp` models `ctx.Config().ReleaseHiddenApiExportableStubs()`: the Go
code guards only the `stubsImplPath` write with `!relExp`, and writes
`stubsHeaderPath` and `stubsDexJarPath` unconditionally. -/
def extractEverythingStubsLibraryInfoFromDependency (relExp : Bool)
    (dep : Dependency) (paths : ScopePaths) : Except String ScopePaths :=
  match dep.javaInfo with
  | some lib =>
    .ok { paths with
      stubsHeaderPath := lib.headerJars
      stubsImplPath := if !relExp then lib.implementationJars else paths.stubsImplPath
      stubsDexJarPath := dep.dexJarBuildPath }
  | none => .error "expected module that has JavaInfoProvider, e.g. java_library"

/-- `extractExportableStubsLibraryInfoFromDependency` (sdk_library.go:743):
guards the `stubsImplPath` write with `relExp` and writes
`exportableStubsDexJarPath` unconditionally. -/
def extractExportableStubsLibraryInfoFromDependency (relExp : Bool)
    (dep : Dependency) (paths : ScopePaths) : Except String ScopePaths :=
  match dep.javaInfo with
  | some lib =>
    .ok { paths with
      stubsImplPath := if relExp then lib.implementationJars else paths.stubsImplPath
      exportableStubsDexJarPath := dep.dexJarBuildPath }
  | none => .error "expected module that has JavaInfoProvider, e.g. java_library"

/-- A concrete JavaInfo payload for the C5 scenario. -/
def exampleJavaInfo : JavaInfo :=
  { headerJars := ["out/h.jar"], implementationJars := ["out/i.jar"] }

/-- A concrete stubs-library dependency for the C5 scenario. -/
def exampleStubDep : Dependency :=
  { javaInfo := some exampleJavaInfo, dexJarBuildPath := some "out/d.jar" }

/-- The context queries `CreateInternalModules` makes during graph
construction: `mctx.Config().AllowMissingDependencies()`,
`android.ExistentPathForSource` and `mctx.ModuleDir()`. -/
structure EarlyCtx where
  allowMissingDependencies : Bool
  existentPath : String → Bool
  moduleDir : String

/-- Go `path.Join` for the three-component calls made here (all components
non-empty, without stray separators). -/
def joinPath3 (a b c : String) : String := a ++ "/" ++ b ++ "/" ++ c

/-- `getApiDir` (sdk_library.go:2276): the `Api_dir` property defaulted to
"api". -/
def getApiDir (m : SdkLibrary) : String := m.apiDirProp.getD "api"

/-- The message of `mctx.ModuleErrorf("Current api file %#v doesn't exist",
path)`. -/
def currentApiFileMissingMsg (p : String) : String :=
  "Current api file " ++ goQuote p ++ " doesn't exist"

/-- The remediation script named by the missing-api summary error. -/
def genApiFilesScript : String := "build/soong/scripts/gen-java-current-api-files.sh"

/-- The message of the summary `mctx.ModuleErrorf("One or more current api
files are missing. You can update them by:\n%s %q %s && m update-api", ...)`
naming the remediation script, the api directory and the scope prefixes. -/
def missingApiFilesSummaryMsg (moduleDir apiDir : String)
    (scopes : List ApiScopeName) : String :=
  "One or more current api files are missing. You can update them by:\n" ++
    genApiFilesScript ++ " " ++ goQuote (moduleDir ++ "/" ++ apiDir) ++ " " ++
    String.intercalate " " (scopes.map apiFilePrefixOf) ++ " && m update-api"

/-- The checked-in current/removed API text file paths required for the
generated scopes: for each scope, `<ModuleDir>/<apiDir>/<prefix>current.txt`
and `<ModuleDir>/<apiDir>/<prefix>removed.txt`. -/
def requiredApiFilePaths (ctx : EarlyCtx) (m : SdkLibrary)
    (scopes : List ApiScopeName) : List String :=
  scopes.flatMap fun scope =>
    ["current.txt", "removed.txt"].map fun api =>
      joinPath3 ctx.moduleDir (getApiDir m) (apiFilePrefixOf scope ++ api)

/-- The observable outcome of `CreateInternalModules`: the fatal errors
registered with the context, the paths recorded via
`AddMissingDependencies`, and the scopes for which the per-scope child
modules were created. -/
structure CreateInternalModulesResult where
  errors : List String
  missingDeps : List String
  createdScopes : List ApiScopeName
deriving DecidableEq, Repr

/-- `CreateInternalModules` (sdk_library.go:2283), up to and including the
missing current/removed api file check.  `hasStandardLibs` models
`decodeSdkDep(mctx, ...).hasStandardLibs()` (computed outside src/).  The
Go loop branches per file on the loop-invariant `AllowMissingDependencies`
flag; with the flag set each missing path is recorded as a missing
dependency, otherwise each missing path produces a fatal error and sets
`missingCurrentApi`, which adds the summary error and returns before any
scope module is created. -/
def CreateInternalModules (ctx : EarlyCtx) (m : SdkLibrary)
    (hasStandardLibs : Bool) : CreateInternalModulesResult :=
  if !m.moduleEnabled then ⟨[], [], []⟩
  else if m.srcs.isEmpty then ⟨["java_sdk_library must specify srcs"], [], []⟩
  else
    let m2 := { m with generateSystemAndTestApis := hasStandardLibs }
    let generatedScopes := (getGeneratedApiScopes m2).1
    let scopeErrors := (getGeneratedApiScopes m2).2
    let apiDir := getApiDir m
    let checks := requiredApiFilePaths ctx m generatedScopes
    let missingFiles := checks.filter fun p => !ctx.existentPath p
    if ctx.allowMissingDependencies then
      ⟨scopeErrors, missingFiles, generatedScopes⟩
    else if missingFiles.isEmpty then
      ⟨scopeErrors, [], generatedScopes⟩
    else
      ⟨scopeErrors ++ missingFiles.map currentApiFileMissingMsg ++
        [missingApiFilesSummaryMsg ctx.moduleDir apiDir generatedScopes],
        [], []⟩

/-- A context whose source tree contains no files at all. -/
def noFilesCtx (allow : Bool) : EarlyCtx :=
  { allowMissingDependencies := allow
    existentPath := fun _ => false
    moduleDir := "frameworks/libx" }

/-- A plain library with no explicit scope overrides (legacy mode, public
only when `hasStandardLibs` is false) and no opt-outs. -/
def plainLib : SdkLibrary :=
  { name := "L"
    scopeEnabled := fun _ => none
    generateSystemAndTestApis := false
    apiDirProp := none
    unsafeIgnoreMissingLatestApi := false
    moduleEnabled := true
    srcs := ["a.java"] }

/-- Modelled from the spec: `android.ApiLevel` is declared outside src/
(android/api_levels.go).  It carries the raw string form used when building
paths, the numeric level, and whether the level is a preview (a concrete
numbered historical version has `isPreview = false`). -/
structure ApiLevelT where
  value : String
  number : Nat
  isPreview : Bool
deriving DecidableEq, Repr

/-- Modelled from the spec: `android.FutureApiLevel`, the fixed
version used by the fallback pair (rendered "current"). -/
def futureApiLevel : ApiLevelT := ⟨"current", 10000, true⟩

/-- Modelled from the spec: `android.SdkKind.String()` (outside src/), the
kind names used as path components of the prebuilt SDK directory. -/
def sdkKindString : SdkKind → String
  | .sdkInvalid => "invalid"
  | .sdkNone => "none"
  | .sdkCore => "core"
  | .sdkCorePlatform => "core_platform"
  | .sdkPublic => "public"
  | .sdkSystem => "system"
  | .sdkTest => "test"
  | .sdkModule => "module-lib"
  | .sdkSystemServer => "system-server"
  | .sdkPrivate => "private"
  | .sdkToolchain => "toolchain"

/-- Modelled from the spec: `android.SdkSpec` (outside src/), the consumer's
requested sdk version: kind, api level and the raw property text. -/
structure SdkSpec where
  kind : SdkKind
  apiLevel : ApiLevelT
  raw : String
deriving DecidableEq, Repr

/-- The external queries `PrebuiltJars` makes through the context:
`android.ExistentPathForSource`, `AllowMissingDependencies`, and
`s.UsePrebuilt(ctx)` (whether a prebuilt SDK snapshot is usable for the
requested version; defined outside src/ and therefore kept opaque). -/
structure BuildEnv where
  existentPath : String → Bool
  allowMissingDependencies : Bool
  usePrebuilt : SdkSpec → Bool

/-- `PrebuiltJars` (sdk_library.go:2193): selects the (version, kind) pair
(falling back to `FutureApiLevel`/`SdkSystem` when no prebuilt SDK is
usable for the requested version), forms
`prebuilts/sdk/<ver>/<kind>/<baseName>.jar`, and returns that path when it
exists; when it does not exist, returns the same path as a placeholder if
missing dependencies are tolerated and otherwise registers a property
error and returns no paths. -/
def PrebuiltJars (env : BuildEnv) (baseName : String) (s : SdkSpec) :
    List String × List String :=
  let vk := if env.usePrebuilt s then (s.apiLevel, s.kind)
            else (futureApiLevel, SdkKind.sdkSystem)
  let dir := "prebuilts/sdk/" ++ vk.1.value ++ "/" ++ sdkKindString vk.2
  let jar := dir ++ "/" ++ baseName ++ ".jar"
  if env.existentPath jar then ([jar], [])
  else if env.allowMissingDependencies then ([jar], [])
  else ([], ["invalid sdk version " ++ goQuote s.raw ++ ", " ++ goQuote jar ++
    " does not exist"])

/-- The jar path `PrebuiltJars` forms for a (version, kind, baseName)
triple. -/
def prebuiltJarPathOf (ver : ApiLevelT) (kind : SdkKind) (baseName : String) :
    String :=
  "prebuilts/sdk/" ++ ver.value ++ "/" ++ sdkKindString kind ++ "/" ++
    baseName ++ ".jar"

/-- `selectHeaderJarsForSdkVersion` (sdk_library.go:1172): a request for a
concrete numbered version (`!sdkVersion.ApiLevel.IsPreview()`) bypasses
scope resolution and goes to `PrebuiltJars`; otherwise the scope selector
is consulted. -/
def selectHeaderJarsForSdkVersion (env : BuildEnv) (c : SdkLibCommon)
    (sdkVersion : SdkSpec) : List String × List String :=
  if !sdkVersion.apiLevel.isPreview then PrebuiltJars env c.libName sdkVersion
  else
    match selectScopePaths c sdkVersion.kind with
    | .ok paths => (paths.stubsHeaderPath, [])
    | .error e => ([], [e])

/-- Definition following the spec's words for C7 (to be compared with the
path the source builds): the claimed prebuilt-jar path convention
`prebuilts/<version>/<kind>/<baseName>.jar`. -/
def specClaimedPrebuiltJarPath (version kind baseName : String) : String :=
  "prebuilts/" ++ version ++ "/" ++ kind ++ "/" ++ baseName ++ ".jar"

/-- The SdkSpec of a consumer requesting the concrete numbered version 30
of the public SDK. -/
def numbered30Spec : SdkSpec :=
  { kind := .sdkPublic, apiLevel := ⟨"30", 30, false⟩, raw := "30" }

/-- A build environment whose source tree has every file. -/
def allFilesEnv : BuildEnv :=
  { existentPath := fun _ => true
    allowMissingDependencies := false
    usePrebuilt := fun _ => true }

/-- A build environment with no files but missing-dependency tolerance. -/
def noFilesTolerantEnv : BuildEnv :=
  { existentPath := fun _ => false
    allowMissingDependencies := true
    usePrebuilt := fun _ => true }

/-- The numeric value of a decimal digit character, `none` otherwise. -/
def digitToNat? (c : Char) : Option Nat :=
  if c = '0' then some 0 else if c = '1' then some 1 else if c = '2' then some 2
  else if c = '3' then some 3 else if c = '4' then some 4
  else if c = '5' then some 5 else if c = '6' then some 6
  else if c = '7' then some 7 else if c = '8' then some 8
  else if c = '9' then some 9 else none

/-- Parse a non-empty run of decimal digits, `none` on any other
character. -/
def parseDecimal : List Char → Nat → Option Nat
  | [], acc => some acc
  | c :: rest, acc =>
    match digitToNat? c with
    | some d => parseDecimal rest (acc * 10 + d)
    | none => none

/-- Modelled from the spec: `android.ApiLevelFromUser` (outside src/)
parses a user string to an API level: "current" denotes the future level
10000, a finalized codename translates to its SDK int (Tiramisu is 33),
and otherwise the string must be a decimal number; invalid input is an
error (`none`). -/
def apiLevelFromUser (s : String) : Option Nat :=
  if s = "current" then some 10000
  else if s = "Tiramisu" then some 33
  else
    match s.data with
    | [] => none
    | cs => parseDecimal cs 0

/-- Modelled from the spec: `ApiLevel.IsCurrent` (outside src/). -/
def apiLevelIsCurrent (n : Nat) : Bool := n = 10000

/-- Modelled from the spec: `ApiLevel.String()` for a finalized level (the
"safeValue" used when writing attributes): the decimal rendering. -/
def apiLevelString (n : Nat) : String := toString n

/-- Modelled from the spec: `android.ApiLevelOrPanic(ctx, "Tiramisu")`. -/
def tiramisuApiLevel : Nat := 33

/-- The `sdkLibraryXmlProperties` struct (sdk_library.go:3095).
`Sdk_library_min_api_level` is in Go a string rendering of an ApiLevel,
consumed only through `ApiLevelOrPanic`; it is modelled as the level. -/
structure SdkLibraryXmlProperties where
  Lib_name : Option String
  On_bootclasspath_since : Option String
  On_bootclasspath_before : Option String
  Min_device_sdk : Option String
  Max_device_sdk : Option String
  Sdk_library_min_api_level : Nat
  Uses_libs_dependencies : Option (List String)
deriving DecidableEq, Repr

/-- The context facts `implPath` consults: apex placement and the partition
predicates of the module. -/
structure XmlEnv where
  forPlatform : Bool
  apexVariationName : String
  socSpecific : Bool
  deviceSpecific : Bool
  productSpecific : Bool
  systemExtSpecific : Bool

/-- `implPath` (sdk_library.go:3192): the file path of the runtime
implementation library. -/
def implPath (env : XmlEnv) (props : SdkLibraryXmlProperties) : String :=
  let implName := props.Lib_name.getD ""
  if !env.forPlatform then
    "/apex/" ++ env.apexVariationName ++ "/javalib/" ++ implName ++ ".jar"
  else
    let partition :=
      if env.socSpecific then "vendor"
      else if env.deviceSpecific then "odm"
      else if env.productSpecific then "product"
      else if env.systemExtSpecific then "system_ext"
      else "system"
    "/" ++ partition ++ "/framework/" ++ implName ++ ".jar"

/-- `formattedOptionalAttribute` (sdk_library.go:3238): Go renders
`        %s=\"%s\"\n` in a raw string, so the backslashes and the `\n` are
literal characters of the produced text. -/
def formattedOptionalAttribute (attrName : String) (value : Option String) :
    String :=
  match value with
  | none => ""
  | some v => "        " ++ attrName ++ "=\\\"" ++ v ++ "\\\"\\n"

/-- `formattedOptionalSdkLevelAttribute` (sdk_library.go:3213): returns the
empty string for an unset attribute, for one that fails to parse, and for
"current" (the latter two additionally register property errors with the
context); otherwise formats the level's decimal rendering. -/
def formattedOptionalSdkLevelAttribute (attrName : String)
    (value : Option String) : String :=
  match value with
  | none => ""
  | some v =>
    match apiLevelFromUser v with
    | none => ""
    | some lvl =>
      if apiLevelIsCurrent lvl then ""
      else formattedOptionalAttribute attrName (some (apiLevelString lvl))

/-- `formattedDependenciesAttribute` (sdk_library.go:3245). -/
def formattedDependenciesAttribute (dependencies : Option (List String)) :
    String :=
  match dependencies with
  | none => ""
  | some deps => "        dependency=\\\"" ++ String.intercalate ":" deps ++
      "\\\"\\n"

/-- `permissionsContents` (sdk_library.go:3252).  `strings.Join(list, "")`
keeps the literal item order; the library element tag is `<apex-library>`
exactly when `Min_device_sdk` is set, because `min_device_sdk` is only
understood from API T onward. -/
def permissionsContents (env : XmlEnv) (props : SdkLibraryXmlProperties) :
    String :=
  let libName := props.Lib_name.getD ""
  let libNameAttr := formattedOptionalAttribute "name" (some libName)
  let filePath := implPath env props
  let filePathAttr := formattedOptionalAttribute "file" (some filePath)
  let implicitFromAttr := formattedOptionalSdkLevelAttribute
    "on-bootclasspath-since" props.On_bootclasspath_since
  let implicitUntilAttr := formattedOptionalSdkLevelAttribute
    "on-bootclasspath-before" props.On_bootclasspath_before
  let minSdkAttr := formattedOptionalSdkLevelAttribute
    "min-device-sdk" props.Min_device_sdk
  let maxSdkAttr := formattedOptionalSdkLevelAttribute
    "max-device-sdk" props.Max_device_sdk
  let dependenciesAttr := formattedDependenciesAttribute
    props.Uses_libs_dependencies
  let libraryTag :=
    if props.Min_device_sdk.isSome then "    <apex-library\\n"
    else "    <library\\n"
  String.join
    ["<?xml version=\\\"1.0\\\" encoding=\\\"utf-8\\\"?>\\n",
     "<!-- Copyright (C) 2018 The Android Open Source Project\\n",
     "\\n",
     "    Licensed under the Apache License, Version 2.0 (the \\\"License\\\");\\n",
     "    you may not use this file except in compliance with the License.\\n",
     "    You may obtain a copy of the License at\\n",
     "\\n",
     "        http://www.apache.org/licenses/LICENSE-2.0\\n",
     "\\n",
     "    Unless required by applicable law or agreed to in writing, software\\n",
     "    distributed under the License is distributed on an \\\"AS IS\\\" BASIS,\\n",
     "    WITHOUT WARRANTIES OR CONDITIONS OF ANY KIND, either express or implied.\\n",
     "    See the License for the specific language governing permissions and\\n",
     "    limitations under the License.\\n",
     "-->\\n",
     "<permissions>\\n",
     libraryTag,
     libNameAttr,
     filePathAttr,
     implicitFromAttr,
     implicitUntilAttr,
     minSdkAttr,
     maxSdkAttr,
     dependenciesAttr,
     "    />\\n",
     "</permissions>\\n"]

/-- The message of a Go `ctx.PropertyErrorf(property, msg)`: the property
context followed by the formatted message. -/
def propertyErrorMsg (property msg : String) : String := property ++ ": " ++ msg

/-- `attrAtLeastT` (sdk_library.go:3354): a set, parseable attribute below
Tiramisu is a property error. -/
def attrAtLeastT (t : Nat) (attr : Option String) (attrName : String) :
    List String :=
  match attr with
  | none => []
  | some v =>
    match apiLevelFromUser v with
    | none => []
    | some level =>
      if t > level then
        [propertyErrorMsg attrName "Attribute value needs to be at least T"]
      else []

/-- `validateAtLeastTAttributes` (sdk_library.go:3346). -/
def validateAtLeastTAttributes (props : SdkLibraryXmlProperties) : List String :=
  attrAtLeastT tiramisuApiLevel props.Min_device_sdk "min_device_sdk" ++
  attrAtLeastT tiramisuApiLevel props.Max_device_sdk "max_device_sdk" ++
  attrAtLeastT tiramisuApiLevel props.On_bootclasspath_before "on_bootclasspath_before" ++
  attrAtLeastT tiramisuApiLevel props.On_bootclasspath_since "on_bootclasspath_since"

/-- The message of `ctx.ModuleErrorf("min_device_sdk can't be greater than
max_device_sdk")`. -/
def minMaxDeviceSdkErrorMsg : String :=
  "min_device_sdk can't be greater than max_device_sdk"

/-- `validateMinAndMaxDeviceSdk` (sdk_library.go:3366): only when both
attributes are present and both parse is the comparison made; min greater
than max is a fatal error. -/
def validateMinAndMaxDeviceSdk (props : SdkLibraryXmlProperties) : List String :=
  match props.Min_device_sdk, props.Max_device_sdk with
  | some minS, some maxS =>
    match apiLevelFromUser minS, apiLevelFromUser maxS with
    | some minL, some maxL =>
      if minL > maxL then [minMaxDeviceSdkErrorMsg] else []
    | _, _ => []
  | _, _ => []

/-- `validateMinMaxDeviceSdkAndModuleMinSdk` (sdk_library.go:3380). -/
def validateMinMaxDeviceSdkAndModuleMinSdk (props : SdkLibraryXmlProperties) :
    List String :=
  let moduleMinApi := props.Sdk_library_min_api_level
  (match props.Min_device_sdk with
   | none => []
   | some v =>
     match apiLevelFromUser v with
     | none => []
     | some api =>
       if moduleMinApi > api then
         [propertyErrorMsg "min_device_sdk"
           ("Can't be less than module's min sdk (" ++
             apiLevelString moduleMinApi ++ ")")]
       else []) ++
  (match props.Max_device_sdk with
   | none => []
   | some v =>
     match apiLevelFromUser v with
     | none => []
     | some api =>
       if moduleMinApi > api then
         [propertyErrorMsg "max_device_sdk"
           ("Can't be less than module's min sdk (" ++
             apiLevelString moduleMinApi ++ ")")]
       else [])

/-- `validateOnBootclasspathBeforeRequirements` (sdk_library.go:3400). -/
def validateOnBootclasspathBeforeRequirements (props : SdkLibraryXmlProperties) :
    List String :=
  let moduleMinApi := props.Sdk_library_min_api_level
  match props.On_bootclasspath_before with
  | none => []
  | some _ =>
    if moduleMinApi < tiramisuApiLevel then
      if props.Min_device_sdk = none then
        [propertyErrorMsg "on_bootclasspath_before"
          "Using this property requires that the module's min_sdk_version or the shared library's min_device_sdk is at least T"]
      else []
    else []

/-- `selfValidate` (sdk_library.go:3339): the four validators in call
order, collecting every fatal error they register. -/
def selfValidate (props : SdkLibraryXmlProperties) : List String :=
  validateAtLeastTAttributes props ++ validateMinAndMaxDeviceSdk props ++
    validateMinMaxDeviceSdkAndModuleMinSdk props ++
    validateOnBootclasspathBeforeRequirements props

/-- `sdkLibraryXml.GenerateAndroidBuildActions` (sdk_library.go:3300):
`selfValidate` runs before `permissionsContents`; fatal errors registered
during validation abort the build before any action executes, modelled as
the error branch carrying the registered errors, while a clean validation
produces the descriptor text. -/
def generateAndroidBuildActions (env : XmlEnv)
    (props : SdkLibraryXmlProperties) : Except (List String) String :=
  let errs := selfValidate props
  if errs.isEmpty then .ok (permissionsContents env props) else .error errs

/-- The header of the permissions xml, before the library element tag. -/
def permissionsXmlHeader : String :=
  String.join
    ["<?xml version=\\\"1.0\\\" encoding=\\\"utf-8\\\"?>\\n",
     "<!-- Copyright (C) 2018 The Android Open Source Project\\n",
     "\\n",
     "    Licensed under the Apache License, Version 2.0 (the \\\"License\\\");\\n",
     "    you may not use this file except in compliance with the License.\\n",
     "    You may obtain a copy of the License at\\n",
     "\\n",
     "        http://www.apache.org/licenses/LICENSE-2.0\\n",
     "\\n",
     "    Unless required by applicable law or agreed to in writing, software\\n",
     "    distributed under the License is distributed on an \\\"AS IS\\\" BASIS,\\n",
     "    WITHOUT WARRANTIES OR CONDITIONS OF ANY KIND, either express or implied.\\n",
     "    See the License for the specific language governing permissions and\\n",
     "    limitations under the License.\\n",
     "-->\\n",
     "<permissions>\\n"]

/-- The library element's attribute block and trailer, after the library
element tag. -/
def permissionsXmlAttrs (env : XmlEnv) (props : SdkLibraryXmlProperties) :
    String :=
  formattedOptionalAttribute "name" (some (props.Lib_name.getD "")) ++
    formattedOptionalAttribute "file" (some (implPath env props)) ++
    formattedOptionalSdkLevelAttribute "on-bootclasspath-since"
      props.On_bootclasspath_since ++
    formattedOptionalSdkLevelAttribute "on-bootclasspath-before"
      props.On_bootclasspath_before ++
    formattedOptionalSdkLevelAttribute "min-device-sdk" props.Min_device_sdk ++
    formattedOptionalSdkLevelAttribute "max-device-sdk" props.Max_device_sdk ++
    formattedDependenciesAttribute props.Uses_libs_dependencies ++
    "    />\\n" ++
    "</permissions>\\n"

/-- The `<apex-library` element opener. -/
def apexLibraryTagStr : String := "    <apex-library\\n"

/-- The plain `<library` element opener. -/
def plainLibraryTagStr : String := "    <library\\n"

/-- Valid descriptor properties: min 33, max 34, module min sdk 33. -/
def xmlPropsOk : SdkLibraryXmlProperties :=
  { Lib_name := some "L"
    On_bootclasspath_since := none
    On_bootclasspath_before := none
    Min_device_sdk := some "33"
    Max_device_sdk := some "34"
    Sdk_library_min_api_level := 33
    Uses_libs_dependencies := none }

/-- Invalid descriptor properties: min 34 exceeds max 33. -/
def xmlPropsBad : SdkLibraryXmlProperties :=
  { Lib_name := some "L"
    On_bootclasspath_since := none
    On_bootclasspath_before := none
    Min_device_sdk := some "34"
    Max_device_sdk := some "33"
    Sdk_library_min_api_level := 33
    Uses_libs_dependencies := none }

/-- A platform (non-apex, system partition) xml build context. -/
def defaultXmlEnv : XmlEnv :=
  { forPlatform := true
    apexVariationName := ""
    socSpecific := false
    deviceSpecific := false
    productSpecific := false
    systemExtSpecific := false }

/- ------------------------------------------------------------------ -/
/- Theorems -/
/- ------------------------------------------------------------------ -/

theorem mem_allApiScopes (s : ApiScopeName) : s ∈ allApiScopes := by
  cases s <;> simp [allApiScopes]

theorem mem_generatedScopes (m : SdkLibrary) (s : ApiScopeName) :
    s ∈ (getGeneratedApiScopes m).1 ↔ scopeEnabledIn m s = true := by
  simp [getGeneratedApiScopes, List.mem_filter, mem_allApiScopes]

/-- C1: in explicit mode (some scope has an explicit enabled override),
every scope is generated exactly when its own override, defaulted to the
scope's static default-enabled flag, is true; the static default is true
only for public; and the concrete scenario `system.enabled=true` with
everything else unset generates exactly {public, system}. -/
theorem explicit_mode_enablement :
    (∀ m : SdkLibrary, anyScopesExplicitlyEnabled m = true →
      ∀ s : ApiScopeName,
        (s ∈ (getGeneratedApiScopes m).1 ↔
          (m.scopeEnabled s).getD (defaultEnabledStatus s) = true)) ∧
    (∀ s : ApiScopeName, defaultEnabledStatus s = true ↔ s = .public) ∧
    (getGeneratedApiScopes systemOnlyExplicitLib).1 = [.public, .system] := by
  refine ⟨fun m h s => ?_, fun s => by cases s <;> simp [defaultEnabledStatus], ?_⟩
  · rw [mem_generatedScopes, scopeEnabledIn, h]
    simp
  · decide

theorem explicit_mode_enablement_witness :
    anyScopesExplicitlyEnabled systemOnlyExplicitLib = true ∧
    (ApiScopeName.system ∈ (getGeneratedApiScopes systemOnlyExplicitLib).1 ↔
      (systemOnlyExplicitLib.scopeEnabled .system).getD
        (defaultEnabledStatus .system) = true) :=
  ⟨by decide, explicit_mode_enablement.1 systemOnlyExplicitLib (by decide) .system⟩

/-- C2: if the resolver registers no errors then the generated scope set is
down-closed (every generated scope's extends-parent is generated); and every
generated scope whose extends-parent is not generated makes the resolver
register a fatal error naming both the enabled scope and the disabled
parent. -/
theorem down_closure_validation (m : SdkLibrary) :
    ((getGeneratedApiScopes m).2 = [] →
      ∀ s ∈ (getGeneratedApiScopes m).1, ∀ p, scopeExtends s = some p →
        p ∈ (getGeneratedApiScopes m).1) ∧
    (∀ s ∈ (getGeneratedApiScopes m).1, ∀ p, scopeExtends s = some p →
      p ∉ (getGeneratedApiScopes m).1 →
        downClosureErrorMsg s p ∈ (getGeneratedApiScopes m).2) := by
  constructor
  · intro hnil s hs p hext
    rw [mem_generatedScopes] at hs ⊢
    have hfm : ∀ a ∈ allApiScopes,
        (if scopeEnabledIn m a then
          match scopeExtends a with
          | some q => if scopeEnabledIn m q then none
                      else some (downClosureErrorMsg a q)
          | none => none
        else none) = none := by
      rw [← List.filterMap_eq_nil_iff]
      exact hnil
    have := hfm s (mem_allApiScopes s)
    rw [hs, hext] at this
    simp only [if_true] at this
    by_contra hp
    simp [hp] at this
  · intro s hs p hext hp
    rw [mem_generatedScopes] at hs
    rw [mem_generatedScopes] at hp
    have hmem : downClosureErrorMsg s p ∈ allApiScopes.filterMap
        (fun scope =>
          if scopeEnabledIn m scope then
            match scopeExtends scope with
            | some q => if scopeEnabledIn m q then none
                        else some (downClosureErrorMsg scope q)
            | none => none
          else none) := by
      rw [List.mem_filterMap]
      refine ⟨s, mem_allApiScopes s, ?_⟩
      rw [hs, hext]
      simp [hp]
    exact hmem

theorem down_closure_validation_witness :
    downClosureErrorMsg .system .public ∈
      (getGeneratedApiScopes publicOffSystemOnLib).2 :=
  (down_closure_validation publicOffSystemOnLib).2 .system (by decide) .public
    rfl (by decide)

theorem findClosestScopePath_step (c : ApiScopeName → Option ScopePaths)
    (s : ApiScopeName) :
    findClosestScopePath c s =
      match c s with
      | some paths => some paths
      | none =>
        match canAccess s with
        | some s2 => findClosestScopePath c s2
        | none => none := by
  rw [findClosestScopePath]
  cases hc : c s <;> cases hca : canAccess s <;> rfl

theorem accessChain_step (s : ApiScopeName) :
    accessChain s =
      s ::
        (match canAccess s with
         | some s2 => accessChain s2
         | none => []) := by
  rw [accessChain]
  cases hca : canAccess s <;> rfl

theorem canAccess_rank_lt (s s2 : ApiScopeName) (h : canAccess s = some s2) :
    scopeRank s2 < scopeRank s := by
  revert h
  cases s <;> cases s2 <;> decide

theorem findClosestScopePath_eq_findSome (c : ApiScopeName → Option ScopePaths)
    (s : ApiScopeName) :
    findClosestScopePath c s = (accessChain s).findSome? c := by
  have H : ∀ n (s : ApiScopeName), scopeRank s ≤ n →
      findClosestScopePath c s = (accessChain s).findSome? c := by
    intro n
    induction n with
    | zero =>
      intro s hs
      have hp : s = .public := by cases s <;> simp [scopeRank] at hs ⊢
      subst hp
      rw [findClosestScopePath_step, accessChain_step]
      cases hc : c .public <;> simp [List.findSome?, hc, canAccess, canAccessDecl, scopeExtends]
    | succ n ih =>
      intro s hs
      rw [findClosestScopePath_step, accessChain_step]
      cases hc : c s with
      | some p => simp [List.findSome?_cons, hc]
      | none =>
        cases hca : canAccess s with
        | none => simp [List.findSome?_cons, hc]
        | some s2 =>
          have hr := canAccess_rank_lt s s2 hca
          simp only [List.findSome?_cons, hc]
          exact ih s2 (by omega)
  exact H 3 s (by cases s <;> simp [scopeRank])

/-- C3: `findClosestScopePath` returns the ScopePaths of the first scope
along the chain requestedScope, requestedScope.canAccess, (that scope's
canAccess), ... whose record exists; the chain from system-server goes
through the canAccess override to module-lib (not through the extends link
to public), so a system-server request against a library providing only
module-lib returns the module-lib artifacts. -/
theorem closest_scope_selection :
    (∀ (c : ApiScopeName → Option ScopePaths) (s : ApiScopeName),
      findClosestScopePath c s = (accessChain s).findSome? c) ∧
    canAccess .systemServer = some .moduleLib ∧
    scopeExtends .systemServer = some .public ∧
    accessChain .systemServer = [.systemServer, .moduleLib, .system, .public] ∧
    findClosestScopePath moduleLibOnlyPathsMap .systemServer =
      some moduleLibScopePaths := by
  refine ⟨findClosestScopePath_eq_findSome, rfl, rfl, ?_, ?_⟩
  · simp [accessChain_step, canAccess, canAccessDecl, scopeExtends]
  · simp [findClosestScopePath_step, moduleLibOnlyPathsMap, canAccess,
      canAccessDecl, scopeExtends]

/-- C4: when the access chain starting at the requested scope exhausts
without finding a populated ScopePaths record, scope selection reports an
error naming the requested scope, the library, and the scopes the library
does provide, and returns no paths. -/
theorem scope_selection_failure (c : SdkLibCommon) (kind : SdkKind)
    (h : findClosestScopePath c.scopePathsMap (sdkKindToApiScope kind) = none) :
    selectScopePaths c kind =
      .error (scopeUnavailableErrorMsg (scopeName (sdkKindToApiScope kind))
        c.libName (availableScopeNames c)) ∧
    ∀ paths, selectScopePaths c kind ≠ .ok paths := by
  have he : selectScopePaths c kind =
      .error (scopeUnavailableErrorMsg (scopeName (sdkKindToApiScope kind))
        c.libName (availableScopeNames c)) := by
    simp [selectScopePaths, h]
  exact ⟨he, fun paths hp => by rw [he] at hp; cases hp⟩

theorem scope_selection_failure_witness :
    selectScopePaths noScopesLib .sdkSystemServer =
      .error (scopeUnavailableErrorMsg (scopeName (sdkKindToApiScope .sdkSystemServer))
        noScopesLib.libName (availableScopeNames noScopesLib)) ∧
    ∀ paths, selectScopePaths noScopesLib .sdkSystemServer ≠ .ok paths :=
  scope_selection_failure noScopesLib .sdkSystemServer (by
    simp [findClosestScopePath_step, noScopesLib, sdkKindToApiScope, canAccess,
      canAccessDecl, scopeExtends])

/-- C10: the requested-kind-to-scope mapping sends system, test, module and
system-server to their scopes and every other kind to the public scope. -/
theorem sdkKindToApiScope_mapping :
    sdkKindToApiScope .sdkSystem = .system ∧
    sdkKindToApiScope .sdkTest = .test ∧
    sdkKindToApiScope .sdkModule = .moduleLib ∧
    sdkKindToApiScope .sdkSystemServer = .systemServer ∧
    ∀ k : SdkKind, k ≠ .sdkSystem → k ≠ .sdkTest → k ≠ .sdkModule →
      k ≠ .sdkSystemServer → sdkKindToApiScope k = .public := by
  refine ⟨rfl, rfl, rfl, rfl, fun k h1 h2 h3 h4 => ?_⟩
  cases k <;> simp_all [sdkKindToApiScope]

theorem sdkKindToApiScope_mapping_witness :
    sdkKindToApiScope .sdkCore = .public :=
  sdkKindToApiScope_mapping.2.2.2.2 .sdkCore (by decide) (by decide) (by decide)
    (by decide)

/-- C5 counterexample: with the release configuration in
exportable-stub-only mode (`ReleaseHiddenApiExportableStubs` true), the
everything-stubs extractor still populates the unconditional dex-jar field
(`stubsDexJarPath` goes from unset to the dependency's dex jar), refuting
the claim that the unconditional implementation-jar and dex-jar fields are
populated only when that mode is off. -/
theorem everything_extractor_dex_write_counterexample :
    (∃ r, extractEverythingStubsLibraryInfoFromDependency true exampleStubDep
        emptyScopePaths = .ok r ∧
      r.stubsDexJarPath = some "out/d.jar") ∧
    emptyScopePaths.stubsDexJarPath = none := by
  exact ⟨⟨_, rfl, rfl⟩, rfl⟩

/-- C5 (amended): given a dependency with a JavaInfo provider, the
everything-stubs extractor populates the unconditional implementation-jar
field only when the release configuration is not in exportable-stub-only
mode, while populating the header-jar and unconditional dex-jar fields
unconditionally (and never touching the exportable dex-jar field); the
exportable-stubs extractor populates its own exportable dex-jar field
unconditionally (and the unconditional implementation-jar field exactly
when that mode is on). -/
theorem stub_flavor_field_split (relExp : Bool) (dep : Dependency)
    (paths : ScopePaths) (lib : JavaInfo) (h : dep.javaInfo = some lib) :
    (∃ r, extractEverythingStubsLibraryInfoFromDependency relExp dep paths = .ok r ∧
      r.stubsHeaderPath = lib.headerJars ∧
      r.stubsImplPath =
        (if relExp then paths.stubsImplPath else lib.implementationJars) ∧
      r.stubsDexJarPath = dep.dexJarBuildPath ∧
      r.exportableStubsDexJarPath = paths.exportableStubsDexJarPath) ∧
    (∃ r, extractExportableStubsLibraryInfoFromDependency relExp dep paths = .ok r ∧
      r.stubsImplPath =
        (if relExp then lib.implementationJars else paths.stubsImplPath) ∧
      r.exportableStubsDexJarPath = dep.dexJarBuildPath ∧
      r.stubsDexJarPath = paths.stubsDexJarPath) := by
  constructor
  · simp only [extractEverythingStubsLibraryInfoFromDependency, h]
    refine ⟨_, rfl, rfl, ?_, rfl, rfl⟩
    cases relExp <;> rfl
  · simp only [extractExportableStubsLibraryInfoFromDependency, h]
    refine ⟨_, rfl, ?_, rfl, rfl⟩
    cases relExp <;> rfl

theorem stub_flavor_field_split_witness :
    (∃ r, extractEverythingStubsLibraryInfoFromDependency false exampleStubDep
        emptyScopePaths = .ok r ∧
      r.stubsHeaderPath = exampleJavaInfo.headerJars ∧
      r.stubsImplPath =
        (if false then emptyScopePaths.stubsImplPath
         else exampleJavaInfo.implementationJars) ∧
      r.stubsDexJarPath = exampleStubDep.dexJarBuildPath ∧
      r.exportableStubsDexJarPath = emptyScopePaths.exportableStubsDexJarPath) ∧
    (∃ r, extractExportableStubsLibraryInfoFromDependency false exampleStubDep
        emptyScopePaths = .ok r ∧
      r.stubsImplPath =
        (if false then exampleJavaInfo.implementationJars
         else emptyScopePaths.stubsImplPath) ∧
      r.exportableStubsDexJarPath = exampleStubDep.dexJarBuildPath ∧
      r.stubsDexJarPath = emptyScopePaths.stubsDexJarPath) :=
  stub_flavor_field_split false exampleStubDep emptyScopePaths exampleJavaInfo rfl

/-- C6 counterexample: with the global missing-dependency tolerance
enabled, a library that has not opted out via
`unsafe_ignore_missing_latest_api` and whose required current/removed api
files are all absent gets no fatal error at graph construction; the
missing paths are recorded as missing dependencies and the scope modules
are still created, refuting the claimed unconditional fatal error and the
claimed absence of any fallback. -/
theorem missing_api_files_tolerated_counterexample :
    plainLib.unsafeIgnoreMissingLatestApi = false ∧
    (noFilesCtx true).existentPath "frameworks/libx/api/current.txt" = false ∧
    (CreateInternalModules (noFilesCtx true) plainLib false).errors = [] ∧
    (CreateInternalModules (noFilesCtx true) plainLib false).missingDeps =
      ["frameworks/libx/api/current.txt", "frameworks/libx/api/removed.txt"] ∧
    (CreateInternalModules (noFilesCtx true) plainLib false).createdScopes =
      [.public] := by
  refine ⟨rfl, rfl, ?_, ?_, ?_⟩ <;> decide

/-- C6 (amended): when the global missing-dependency tolerance is disabled
and some required current/removed api file of a generated scope is absent,
`CreateInternalModules` registers a fatal error for each missing file
naming it, plus a summary error naming the remediation script, and creates
no scope modules; this happens at graph-construction time, before any
build action is declared. -/
theorem missing_api_files_fatal (ctx : EarlyCtx) (m : SdkLibrary) (hsl : Bool)
    (hen : m.moduleEnabled = true) (hsrcs : m.srcs.isEmpty = false)
    (hallow : ctx.allowMissingDependencies = false)
    (hmiss : ((requiredApiFilePaths ctx m
        (getGeneratedApiScopes { m with generateSystemAndTestApis := hsl }).1).filter
        (fun p => !ctx.existentPath p)).isEmpty = false) :
    (∀ p ∈ requiredApiFilePaths ctx m
        (getGeneratedApiScopes { m with generateSystemAndTestApis := hsl }).1,
      ctx.existentPath p = false →
        currentApiFileMissingMsg p ∈ (CreateInternalModules ctx m hsl).errors) ∧
    missingApiFilesSummaryMsg ctx.moduleDir (getApiDir m)
        (getGeneratedApiScopes { m with generateSystemAndTestApis := hsl }).1 ∈
      (CreateInternalModules ctx m hsl).errors ∧
    (CreateInternalModules ctx m hsl).createdScopes = [] := by
  have hres : CreateInternalModules ctx m hsl =
      ⟨(getGeneratedApiScopes { m with generateSystemAndTestApis := hsl }).2 ++
        ((requiredApiFilePaths ctx m
          (getGeneratedApiScopes { m with generateSystemAndTestApis := hsl }).1).filter
          (fun p => !ctx.existentPath p)).map currentApiFileMissingMsg ++
        [missingApiFilesSummaryMsg ctx.moduleDir (getApiDir m)
          (getGeneratedApiScopes { m with generateSystemAndTestApis := hsl }).1],
        [], []⟩ := by
    have h1 : (!m.moduleEnabled) = false := by simp [hen]
    simp only [CreateInternalModules, h1, hsrcs, hallow, hmiss]
    simp
  refine ⟨?_, ?_, ?_⟩
  · intro p hp hmissp
    rw [hres]
    simp only [List.mem_append]
    left; right
    exact List.mem_map_of_mem _ (List.mem_filter.2 ⟨hp, by simp [hmissp]⟩)
  · rw [hres]
    simp
  · rw [hres]

theorem missing_api_files_fatal_witness :
    currentApiFileMissingMsg "frameworks/libx/api/current.txt" ∈
      (CreateInternalModules (noFilesCtx false) plainLib false).errors ∧
    missingApiFilesSummaryMsg "frameworks/libx" "api" [.public] ∈
      (CreateInternalModules (noFilesCtx false) plainLib false).errors ∧
    (CreateInternalModules (noFilesCtx false) plainLib false).createdScopes = [] := by
  have h := missing_api_files_fatal (noFilesCtx false) plainLib false rfl rfl rfl
    (by decide)
  exact ⟨h.1 "frameworks/libx/api/current.txt" (by decide) rfl, h.2.1, h.2.2⟩

/-- C7 counterexample: with the prebuilt jar for version 30 present, the
resolved path is `prebuilts/sdk/30/public/foo.jar`, which differs from the
claimed convention `prebuilts/<version>/<kind>/<baseName>.jar`; and with
the file absent under global missing-dependency tolerance, the result is a
placeholder for that same requested jar, not the fixed default
(current, system) pair's jar. -/
theorem prebuilt_jar_path_counterexample :
    PrebuiltJars allFilesEnv "foo" numbered30Spec =
      (["prebuilts/sdk/30/public/foo.jar"], []) ∧
    "prebuilts/sdk/30/public/foo.jar" ≠
      specClaimedPrebuiltJarPath "30" "public" "foo" ∧
    PrebuiltJars noFilesTolerantEnv "foo" numbered30Spec =
      (["prebuilts/sdk/30/public/foo.jar"], []) ∧
    "prebuilts/sdk/30/public/foo.jar" ≠
      prebuiltJarPathOf futureApiLevel .sdkSystem "foo" := by
  refine ⟨?_, ?_, ?_, ?_⟩ <;> decide

/-- C7 (amended): a request for a concrete numbered historical version
bypasses scope resolution and goes to the prebuilt-jar convention
`prebuilts/sdk/<version>/<kind>/<baseName>.jar`, where the (version, kind)
pair is the requested one when a prebuilt SDK is usable for it and the
fixed default pair (current, system) otherwise; when the jar file exists or
missing-dependency tolerance is globally enabled, that jar path is
returned, and otherwise a configuration error naming the requested raw
version and the missing jar is reported with no paths returned. -/
theorem numbered_version_prebuilt_resolution (env : BuildEnv) (c : SdkLibCommon)
    (s : SdkSpec) (base : String) (hnum : s.apiLevel.isPreview = false) :
    selectHeaderJarsForSdkVersion env c s = PrebuiltJars env c.libName s ∧
    (∀ ver kind,
      (if env.usePrebuilt s then (s.apiLevel, s.kind)
       else (futureApiLevel, SdkKind.sdkSystem)) = (ver, kind) →
      ((env.existentPath (prebuiltJarPathOf ver kind base) = true ∨
          env.allowMissingDependencies = true) →
        PrebuiltJars env base s = ([prebuiltJarPathOf ver kind base], [])) ∧
      (env.existentPath (prebuiltJarPathOf ver kind base) = false →
        env.allowMissingDependencies = false →
        PrebuiltJars env base s =
          ([], ["invalid sdk version " ++ goQuote s.raw ++ ", " ++
            goQuote (prebuiltJarPathOf ver kind base) ++ " does not exist"]))) := by
  constructor
  · simp [selectHeaderJarsForSdkVersion, hnum]
  · intro ver kind hvk
    simp only [prebuiltJarPathOf]
    constructor
    · intro hsucc
      simp only [PrebuiltJars, hvk]
      rcases hsucc with hex | hallow
      · simp [hex]
      · cases hex2 : env.existentPath ("prebuilts/sdk/" ++ ver.value ++ "/" ++
          sdkKindString kind ++ "/" ++ base ++ ".jar") <;> simp [hex2, hallow]
    · intro hex hallow
      simp only [PrebuiltJars, hvk]
      simp [hex, hallow]

theorem numbered_version_prebuilt_resolution_witness :
    selectHeaderJarsForSdkVersion allFilesEnv noScopesLib numbered30Spec =
      PrebuiltJars allFilesEnv noScopesLib.libName numbered30Spec ∧
    PrebuiltJars allFilesEnv "foo" numbered30Spec =
      ([prebuiltJarPathOf numbered30Spec.apiLevel .sdkPublic "foo"], []) := by
  have h := numbered_version_prebuilt_resolution allFilesEnv noScopesLib
    numbered30Spec "foo" rfl
  exact ⟨h.1, (h.2 numbered30Spec.apiLevel .sdkPublic rfl).1 (Or.inl rfl)⟩

theorem selfValidate_eq_nil_parts (props : SdkLibraryXmlProperties)
    (h : selfValidate props = []) :
    validateMinAndMaxDeviceSdk props = [] := by
  unfold selfValidate at h
  rcases List.append_eq_nil.1 h with ⟨h1, h2⟩
  rcases List.append_eq_nil.1 h1 with ⟨h3, h4⟩
  rcases List.append_eq_nil.1 h3 with ⟨_, h6⟩
  exact h6

/-- C8: for every shared-library permission descriptor build, when both
min_device_sdk and max_device_sdk are present and parse as API levels,
a successfully produced descriptor satisfies min <= max; and an input with
min greater than max makes validation register the fatal
"min_device_sdk can't be greater than max_device_sdk" error and produce no
descriptor text. -/
theorem minmax_device_sdk_validation (env : XmlEnv)
    (props : SdkLibraryXmlProperties) :
    (∀ content, generateAndroidBuildActions env props = .ok content →
      ∀ minS maxS minL maxL, props.Min_device_sdk = some minS →
        props.Max_device_sdk = some maxS → apiLevelFromUser minS = some minL →
        apiLevelFromUser maxS = some maxL → minL ≤ maxL) ∧
    (∀ minS maxS minL maxL, props.Min_device_sdk = some minS →
      props.Max_device_sdk = some maxS → apiLevelFromUser minS = some minL →
      apiLevelFromUser maxS = some maxL → minL > maxL →
      ∃ errs, generateAndroidBuildActions env props = .error errs ∧
        minMaxDeviceSdkErrorMsg ∈ errs) := by
  constructor
  · intro content hok minS maxS minL maxL hmin hmax hpmin hpmax
    by_contra hgt
    push_neg at hgt
    have hminmax : validateMinAndMaxDeviceSdk props = [minMaxDeviceSdkErrorMsg] := by
      unfold validateMinAndMaxDeviceSdk
      rw [hmin, hmax]
      simp only [hpmin, hpmax]
      simp [hgt]
    have hne : (selfValidate props).isEmpty = true := by
      by_contra hne
      rw [Bool.not_eq_true] at hne
      unfold generateAndroidBuildActions at hok
      simp [hne] at hok
    have hnil : selfValidate props = [] := by
      cases hsv : selfValidate props with
      | nil => rfl
      | cons a l => rw [hsv] at hne; simp at hne
    have := selfValidate_eq_nil_parts props hnil
    rw [hminmax] at this
    cases this
  · intro minS maxS minL maxL hmin hmax hpmin hpmax hgt
    have hminmax : validateMinAndMaxDeviceSdk props = [minMaxDeviceSdkErrorMsg] := by
      unfold validateMinAndMaxDeviceSdk
      rw [hmin, hmax]
      simp only [hpmin, hpmax]
      simp [hgt]
    have hmem : minMaxDeviceSdkErrorMsg ∈ selfValidate props := by
      unfold selfValidate
      rw [hminmax]
      simp
    have hne : (selfValidate props).isEmpty = false := by
      cases hsv : selfValidate props
      · rw [hsv] at hmem; cases hmem
      · rfl
    refine ⟨selfValidate props, ?_, hmem⟩
    simp [generateAndroidBuildActions, hne]

theorem minmax_device_sdk_validation_witness :
    (33 : Nat) ≤ 34 ∧
    ∃ errs, generateAndroidBuildActions defaultXmlEnv xmlPropsBad = .error errs ∧
      minMaxDeviceSdkErrorMsg ∈ errs := by
  constructor
  · have hok : generateAndroidBuildActions defaultXmlEnv xmlPropsOk =
        .ok (permissionsContents defaultXmlEnv xmlPropsOk) := by
      have hval : (selfValidate xmlPropsOk).isEmpty = true := by decide
      simp [generateAndroidBuildActions, hval]
    exact (minmax_device_sdk_validation defaultXmlEnv xmlPropsOk).1
      (permissionsContents defaultXmlEnv xmlPropsOk) hok "33" "34" 33 34 rfl rfl
      (by decide) (by decide)
  · exact (minmax_device_sdk_validation defaultXmlEnv xmlPropsBad).2 "34" "33"
      34 33 rfl rfl (by decide) (by decide) (by decide)

/-- C9: the generated permissions XML opens the library element with
`<apex-library` exactly when the Min_device_sdk property is set and with
the ordinary `<library` otherwise: the contents factor as the fixed header,
then the tag selected by that property, then the attribute block; and the
two tags differ. -/
theorem permissions_xml_library_tag (env : XmlEnv)
    (props : SdkLibraryXmlProperties) :
    permissionsContents env props =
      permissionsXmlHeader ++
        (if props.Min_device_sdk.isSome then apexLibraryTagStr
         else plainLibraryTagStr) ++
        permissionsXmlAttrs env props ∧
    apexLibraryTagStr = "    <apex-library\\n" ∧
    plainLibraryTagStr = "    <library\\n" ∧
    apexLibraryTagStr ≠ plainLibraryTagStr := by
  refine ⟨?_, rfl, rfl, by decide⟩
  cases hmin : props.Min_device_sdk <;>
    simp [permissionsContents, permissionsXmlHeader, permissionsXmlAttrs,
      apexLibraryTagStr, plainLibraryTagStr, String.join, String.append_assoc,
      hmin]
